import Mathlib

/-!
Verification development for the PaddleNLP Llama pipeline-parallel adapter
(`paddlenlp/transformers/llama/modeling_pp.py`) and the bi-encoder embedding
model (`paddlenlp/transformers/llm_embed/modeling.py`).

Shallow embedding: paddle tensors are modelled as references (`TRef`) carrying
an object identity (`uid`), a dtype and a `stop_gradient` flag; tensor data
lives in an explicit heap (`List (List Int)` indexed by `uid`), so cloning and
in-place mutation are observable.  Python tuples of tensors become `List TRef`,
the non-tuple case its own constructor; fallible code returns `Option` /
`Except`.
-/

/-- Paddle element dtypes relevant to the mask-disambiguation logic. -/
inductive DType where
  | int32
  | int64
  | float32
  | boolT
deriving DecidableEq

/-- A tensor reference: object identity `uid` into the heap, plus the dtype and
`stop_gradient` attributes the pipeline code inspects and mutates. -/
structure TRef where
  uid : Nat
  dtype : DType
  stop_gradient : Bool
deriving DecidableEq

/-- The heap holding each tensor object's data, indexed by `uid`. -/
abbrev Heap : Type := List (List Int)

/-- The data a reference currently points at. -/
def valueOf (h : Heap) (t : TRef) : List Int :=
  List.getD h t.uid []

/-- Predicate: `t` points inside the heap (a live object the caller retains). -/
def validRef (h : Heap) (t : TRef) : Prop :=
  t.uid < List.length h

/-- In-place mutation of the object with identity `u` (e.g. `tensor[...] = v`). -/
def setData (h : Heap) (u : Nat) (v : List Int) : Heap :=
  List.set h u v

/-- Model of `tensor.clone()`: allocate a fresh object at the end of the heap holding a
copy of the data; dtype and `stop_gradient` are carried over. -/
def cloneT (h : Heap) (t : TRef) : TRef × Heap :=
  ({ uid := List.length h, dtype := t.dtype, stop_gradient := t.stop_gradient },
   h ++ [valueOf h t])

/-- Model of `x.clone()` applied to an optional argument (`if x is not None`). -/
def cloneOpt (h : Heap) (o : Option TRef) : Heap × Option TRef :=
  match o with
  | none => (h, none)
  | some t =>
      match cloneT h t with
      | (t2, h2) => (h2, some t2)

/-- The inter-stage argument bundle: either a bare tensor (arity 1) or a
Python tuple of tensors. -/
inductive Args where
  | single (t : TRef)
  | tuple (ts : List TRef)
deriving DecidableEq

/-- Model of `t.stop_gradient = True`, as `parse_args` performs on auxiliary slots. -/
def markSG (t : TRef) : TRef :=
  { t with stop_gradient := true }

/-- Embedding of `parse_args` (modeling_pp.py lines 57-89).  A tuple of length
5/4/3/2 is destructured positionally; a non-tuple is the bare hidden states;
a tuple of any other length leaves the local variables unbound in the source
(UnboundLocalError), modelled as `none`.  Every non-`None` auxiliary tensor
gets `stop_gradient = True` before being returned. -/
def parse_args (args : Args) :
    Option (TRef × Option TRef × Option TRef × Option TRef × Option TRef) :=
  match args with
  | .single t => some (t, none, none, none, none)
  | .tuple [h, a, r, p, b] =>
      some (h, some (markSG a), some (markSG r), some (markSG p), some (markSG b))
  | .tuple [h, a, r, p] =>
      some (h, some (markSG a), some (markSG r), some (markSG p), none)
  | .tuple [h, a, r] =>
      some (h, some (markSG a), some (markSG r), none, none)
  | .tuple [h, a] =>
      some (h, some (markSG a), none, none, none)
  | .tuple _ => none

/-- Embedding of `return_args` (modeling_pp.py lines 92-109).  Starts from
`(hidden_states,)`, appends a `.clone()` of each non-`None` auxiliary argument
in slot order, and unwraps a length-1 tuple to the bare tensor.  The heap is
threaded to make the clones' fresh identities explicit. -/
def return_args (h : Heap) (hidden_states : TRef)
    (attention_mask attn_mask_startend_row_indices position_ids alibi : Option TRef) :
    Args × Heap :=
  let s1 := cloneOpt h attention_mask
  let s2 := cloneOpt s1.1 attn_mask_startend_row_indices
  let s3 := cloneOpt s2.1 position_ids
  let s4 := cloneOpt s3.1 alibi
  match [hidden_states] ++ s1.2.toList ++ s2.2.toList ++ s3.2.toList ++ s4.2.toList with
  | [t] => (.single t, s4.1)
  | ts => (.tuple ts, s4.1)

/-- Relation: `h2` is `h` with zero or more objects appended (what a sequence of
`.clone()` allocations does to the heap). -/
def heapExt (h2 h : Heap) : Prop :=
  ∃ tail, h2 = h ++ tail

/-- Round-trip relation between one original optional slot and the slot
`parse_args` returns after `return_args`: absent stays absent; a populated
slot comes back non-differentiable, of the same dtype, and with the original
data. -/
def slotsMatch (h0 h4 : Heap) (orig dec : Option TRef) : Prop :=
  match orig, dec with
  | none, none => True
  | some t, some c =>
      c.stop_gradient = true ∧ c.dtype = t.dtype ∧ valueOf h4 c = valueOf h0 t
  | _, _ => False

/-- The tensors an envelope physically carries, in wire order. -/
def envElems (a : Args) : List TRef :=
  match a with
  | .single t => [t]
  | .tuple ts => ts

/-- Model of `x is not None and x.dtype == d` on an optional tensor. -/
def hasDtype (o : Option TRef) (d : DType) : Bool :=
  match o with
  | some t => t.dtype = d
  | none => false

/-- Embedding of the slot-disambiguation block shared verbatim by
`LlamaEmbeddingPipe.forward` (lines 152-183) and `LlamaDecoderLayerPipe.forward`
(lines 249-280).  `alibiCfg` is `self.config.alibi`, `dev` the result of
`get_env_device()`.  Returns the resolved
`(attention_mask, attn_mask_startend_row_indices, position_ids, alibi)`. -/
def resolveMasks (alibiCfg : Bool) (dev : String)
    (attention_mask attn_mask_startend_row_indices position_ids alibi : Option TRef) :
    Option TRef × Option TRef × Option TRef × Option TRef :=
  if alibiCfg ∧ alibi = none ∧ position_ids = none ∧ attn_mask_startend_row_indices ≠ none then
    (attention_mask, none, none, attn_mask_startend_row_indices)
  else if alibiCfg ∧ alibi = none ∧ position_ids ≠ none ∧ attn_mask_startend_row_indices ≠ none then
    (attention_mask, none, attn_mask_startend_row_indices, position_ids)
  else if ¬ alibiCfg then
    if dev = "gpu" then
      if hasDtype attention_mask .int32 then
        (none, attention_mask, attn_mask_startend_row_indices, alibi)
      else if hasDtype attention_mask .int64 then
        (none, none, attention_mask, alibi)
      else if hasDtype attn_mask_startend_row_indices .int64 then
        (attention_mask, none, attn_mask_startend_row_indices, alibi)
      else
        (attention_mask, attn_mask_startend_row_indices, position_ids, alibi)
    else if position_ids = none ∧ attn_mask_startend_row_indices ≠ none then
      (attention_mask, none, attn_mask_startend_row_indices, alibi)
    else
      (attention_mask, attn_mask_startend_row_indices, position_ids, alibi)
  else
    (attention_mask, attn_mask_startend_row_indices, position_ids, alibi)

/-- Embedding of the two mutual-exclusion assertions in
`LlamaEmbeddingPipe.forward`: line 198 (`alibi and attn_mask_startend_row_indices
can not be set at same time`, checked inside `if self.config.alibi`) and
line 223 (`attention_mask and attn_mask_startend_row_indices can not be set at
same time`, checked inside `if attention_mask is not None`).  An `AssertionError`
is modelled as `.error` with the assertion message. -/
def embed_mask_assert (alibiCfg : Bool)
    (attention_mask attn_mask_startend_row_indices : Option TRef) :
    Except String Unit :=
  if alibiCfg ∧ attn_mask_startend_row_indices ≠ none then
    .error "alibi and attn_mask_startend_row_indices can not be set at same time"
  else if attention_mask ≠ none ∧ attn_mask_startend_row_indices ≠ none then
    .error "attention_mask and attn_mask_startend_row_indices can not be set at same time"
  else
    .ok ()

/-- Embedding of the recompute decision in `LlamaDecoderLayerPipe.forward`
(lines 282-288): the layer forward is wrapped in recomputation iff
`self.enable_recompute and self.layerwise_recompute and
self.config.recompute_granularity == "full" and has_gradient`, where
`layerwise_recompute` was set to `i not in no_recompute_layers` at construction
(line 420) and `has_gradient = not hidden_states.stop_gradient`.
`enable_recompute` is an attribute of the base `LlamaDecoderLayer`, defined
outside this file set; it is kept as an explicit boolean parameter meaning
"recomputation is enabled at all" (the spec's granularity `none` is its
negation). -/
def should_recompute (enable_recompute : Bool) (recompute_granularity : String)
    (no_recompute_layers : List Nat) (layer_index : Nat) (has_gradient : Bool) : Bool :=
  enable_recompute && decide (layer_index ∉ no_recompute_layers) &&
    (recompute_granularity == "full") && has_gradient

/-- Embedding of the segmentation-strategy choice in
`LlamaForCausalLMPipe.__init__` (lines 442-444): start from
`"layer:LlamaDecoderLayer"` and switch to `"uniform"` when the hidden-layer
count does not divide evenly by the pipeline dimension. -/
def choose_seg_method (num_hidden_layers pipe_dim : Nat) : String :=
  if num_hidden_layers % pipe_dim ≠ 0 then "uniform" else "layer:LlamaDecoderLayer"

/-- A Python value appearing in a pipeline-input field: `None` or a list of
ints (sufficient for the splitter, which never inspects field contents). -/
inductive PVal where
  | noneV
  | ints (xs : List Int)
deriving DecidableEq

/-- Result of `get_expected_keys`: a tuple, or the unwrapped singleton. -/
inductive Extracted where
  | single (v : PVal)
  | tuple (vs : List PVal)
deriving DecidableEq

/-- Model of `inputs.pop(k) if k in inputs else None` on an association-list dict:
returns the value (or `noneV`) and the dict with the first binding of `k`
removed. -/
def popKey (d : List (String × List Int)) (k : String) :
    PVal × List (String × List Int) :=
  match d with
  | [] => (.noneV, [])
  | (k2, v) :: rest =>
      if k2 = k then (.ints v, rest)
      else
        match popKey rest k with
        | (r, rest2) => (r, (k2, v) :: rest2)

/-- Embedding of `get_expected_keys` (modeling_pp.py lines 366-370): pop each
listed key (absent keys yield `None`), tuple the results, and unwrap a
singleton.  The mutated dict is returned alongside. -/
def get_expected_keys (inputs : List (String × List Int)) (keys : List String) :
    Extracted × List (String × List Int) :=
  let step := keys.foldl
    (fun acc k =>
      match popKey acc.2 k with
      | (v, d2) => (acc.1 ++ [v], d2))
    (([] : List PVal), inputs)
  match step with
  | ([v], d) => (.single v, d)
  | (vs, d) => (.tuple vs, d)

/-- The fixed first-stage field enumeration (line 363). -/
def first_stage_keys : List String :=
  ["input_ids", "attention_mask", "attn_mask_startend_row_indices", "position_ids"]

/-- The fixed last-stage field enumeration (line 364). -/
def last_stage_keys : List String :=
  ["labels"]

/-- Embedding of the dict branch of
`LlamaForCausalLMPipe._prepare_pipeline_inputs_func` (lines 372-376): extract
the first-stage fields, then the last-stage fields from the already-mutated
dict. -/
def prepare_pipeline_inputs_dict (inputs : List (String × List Int)) :
    Extracted × Extracted :=
  match get_expected_keys inputs first_stage_keys with
  | (firstVals, rest) =>
      match get_expected_keys rest last_stage_keys with
      | (lastVals, _) => (firstVals, lastVals)

/-!
Bi-encoder pooling (`llm_embed/modeling.py`).  A hidden-state tensor of shape
`batch × seq × dim` is a `List (List (List Rat))`, an attention mask of shape
`batch × seq` a `List (List Nat)` (0/1 entries).  Rationals stand in for
floats, which is exact for the sums, products and divisions performed here.
-/

/-- Elementwise sum of two vectors (rectangular inputs in practice). -/
def addVec (v w : List Rat) : List Rat :=
  match v, w with
  | [], w => w
  | v, [] => v
  | a :: v, b :: w => (a + b) :: addVec v w

/-- Sum a list of vectors elementwise (`paddle.sum(..., axis=1)`). -/
def sumVecs (vs : List (List Rat)) : List Rat :=
  List.foldr addVec [] vs

/-- Model of `mask.sum(axis=1)` for one batch row. -/
def maskSum (m : List Nat) : Nat :=
  List.foldr (· + ·) 0 m

/-- Python tensor indexing along the sequence axis, with negative indices
counting from the end (`hidden_state[:, -1]`). -/
def pyGet (rows : List (List Rat)) (i : Int) : List Rat :=
  if 0 ≤ i then List.getD rows i.toNat []
  else List.getD rows (List.length rows - (-i).toNat) []

/-- The `"mean"` branch of `BiEncoderModel.sentence_embedding` (lines 97-100):
`s = paddle.sum(hidden_state * mask.unsqueeze(-1).float(), axis=1)`,
`d = mask.sum(axis=1, keepdim=True).float()`, result `s / d`. -/
def mean_pool (hidden : List (List (List Rat))) (mask : List (List Nat)) :
    List (List Rat) :=
  List.zipWith
    (fun rows m =>
      let s := sumVecs (List.zipWith (fun w row => row.map (fun x => (w : Rat) * x)) m rows)
      let d : Rat := (maskSum m : Nat)
      s.map (fun x => x / d))
    hidden mask

/-- The `"last"` branch of `BiEncoderModel.sentence_embedding` (lines 103-108):
`sequence_lengths = mask.sum(axis=1)`, `last_token_indices = sequence_lengths - 1`,
`hidden_state[paddle.arange(batch), last_token_indices]`. -/
def last_pool (hidden : List (List (List Rat))) (mask : List (List Nat)) :
    List (List Rat) :=
  List.zipWith (fun rows m => pyGet rows ((maskSum m : Int) - 1)) hidden mask

/-- Embedding of `BiEncoderModel.sentence_embedding` (lines 96-110), the
training-path pooling: dispatch on `self.sentence_pooling_method`, raising
`ValueError(f"Invalid sentence pooling method: ...")` on anything but
`"mean"`, `"cls"`, `"last"`.  It never consults the tokenizer padding side. -/
def sentence_embedding (sentence_pooling_method : String)
    (hidden : List (List (List Rat))) (mask : List (List Nat)) :
    Except String (List (List Rat)) :=
  if sentence_pooling_method = "mean" then
    .ok (mean_pool hidden mask)
  else if sentence_pooling_method = "cls" then
    .ok (hidden.map (fun rows => List.getD rows 0 []))
  else if sentence_pooling_method = "last" then
    .ok (last_pool hidden mask)
  else
    .error ("Invalid sentence pooling method: " ++ sentence_pooling_method)

/-- The `"last"`/right-padding pooling written inline in
`BiEncoderModel.encode_sentences` (lines 247-249), translated independently of
`last_pool`: `sequence_lengths = inputs.attention_mask.sum(axis=1)`,
`last_token_indices = sequence_lengths - 1`,
`last_hidden_state[paddle.arange(batch), last_token_indices]`. -/
def encode_last_pool (hidden : List (List (List Rat))) (mask : List (List Nat)) :
    List (List Rat) :=
  List.zipWith (fun rows m => pyGet rows ((maskSum m : Int) - 1)) hidden mask

/-- The `"mean"` pooling written inline in `BiEncoderModel.encode_sentences`
(lines 256-259), translated independently of `mean_pool`:
`s = paddle.sum(last_hidden_state * inputs.attention_mask.unsqueeze(-1), axis=1)`,
`d = inputs.attention_mask.sum(axis=1, keepdim=True)`, result `s / d`
(no explicit float cast; the multiplication upcasts, which rationals model
exactly). -/
def encode_mean_pool (hidden : List (List (List Rat))) (mask : List (List Nat)) :
    List (List Rat) :=
  List.zipWith
    (fun rows m =>
      let s := sumVecs (List.zipWith (fun w row => row.map (fun x => (w : Rat) * x)) m rows)
      let d : Rat := (maskSum m : Nat)
      s.map (fun x => x / d))
    hidden mask

/-- Embedding of the pooling dispatch inside `BiEncoderModel.encode_sentences`
(lines 245-261), the inference-path pooling, before the final
`paddle.nn.functional.normalize`.  `"last"` checks `self.tokenizer.padding_side`
and raises `NotImplementedError(f"Padding side ... not supported.")` for any
other side; `"cls"` takes `last_hidden_state[:, 1]` (token position 1);
the final `else` on line 261 interpolates `self.pooling_method`, an attribute
that is never assigned anywhere in the class (the real attribute is
`sentence_pooling_method`), so Python raises `AttributeError` while building
the message and the surfaced error names the missing attribute, not the
invalid pooling value. -/
def encode_sentences_pool (sentence_pooling_method padding_side : String)
    (hidden : List (List (List Rat))) (mask : List (List Nat)) :
    Except String (List (List Rat)) :=
  if sentence_pooling_method = "last" then
    if padding_side = "right" then
      .ok (encode_last_pool hidden mask)
    else if padding_side = "left" then
      .ok (hidden.map (fun rows => pyGet rows (-1)))
    else
      .error ("Padding side " ++ padding_side ++ " not supported.")
  else if sentence_pooling_method = "cls" then
    .ok (hidden.map (fun rows => List.getD rows 1 []))
  else if sentence_pooling_method = "mean" then
    .ok (encode_mean_pool hidden mask)
  else
    .error "AttributeError: BiEncoderModel object has no attribute pooling_method"


/-! ## Heap lemmas -/

theorem heapExt_refl (h : Heap) : heapExt h h :=
  ⟨[], by simp⟩

theorem heapExt_trans {h3 h2 h : Heap} (e1 : heapExt h2 h) (e2 : heapExt h3 h2) :
    heapExt h3 h := by
  obtain ⟨t1, rfl⟩ := e1
  obtain ⟨t2, rfl⟩ := e2
  exact ⟨t1 ++ t2, by simp⟩

theorem heapExt_length {h2 h : Heap} (e : heapExt h2 h) :
    List.length h ≤ List.length h2 := by
  obtain ⟨t, rfl⟩ := e
  simp

theorem valueOf_append_left (h tail : Heap) (t : TRef) (ht : t.uid < List.length h) :
    valueOf (h ++ tail) t = valueOf h t := by
  unfold valueOf
  rw [List.getD_eq_getElem?_getD, List.getD_eq_getElem?_getD, List.getElem?_append_left ht]

theorem valueOf_ext {h2 h : Heap} {t : TRef} (e : heapExt h2 h)
    (ht : t.uid < List.length h) : valueOf h2 t = valueOf h t := by
  obtain ⟨tail, rfl⟩ := e
  exact valueOf_append_left h tail t ht

theorem valueOf_concat_self (h : Heap) (v : List Int) (d : DType) (sg : Bool) :
    valueOf (h ++ [v]) ⟨List.length h, d, sg⟩ = v := by
  unfold valueOf
  rw [List.getD_eq_getElem?_getD]
  simp [List.getElem?_concat_length]

theorem valueOf_setData_ne (h : Heap) (u : Nat) (v : List Int) (t : TRef)
    (ht : t.uid ≠ u) : valueOf (setData h u v) t = valueOf h t := by
  unfold valueOf setData
  rw [List.getD_eq_getElem?_getD, List.getD_eq_getElem?_getD,
    List.getElem?_set_ne (Ne.symm ht)]

theorem cloneOpt_fst_ext (h : Heap) (o : Option TRef) : heapExt (cloneOpt h o).1 h := by
  cases o with
  | none => exact heapExt_refl h
  | some t => exact ⟨[valueOf h t], rfl⟩

theorem cloneOpt_some_eq (h : Heap) (t : TRef) :
    cloneOpt h (some t) =
      (h ++ [valueOf h t], some ⟨List.length h, t.dtype, t.stop_gradient⟩) := rfl

theorem valueOf_cloned (h : Heap) (t : TRef) (d : DType) (sg : Bool) :
    valueOf (cloneOpt h (some t)).1 ⟨List.length h, d, sg⟩ = valueOf h t :=
  valueOf_concat_self h (valueOf h t) d sg

theorem return_args_snd (h : Heap) (hs : TRef) (am ri pi al : Option TRef) :
    (return_args h hs am ri pi al).2 =
      (cloneOpt (cloneOpt (cloneOpt (cloneOpt h am).1 ri).1 pi).1 al).1 := by
  unfold return_args
  dsimp only
  split <;> rfl

theorem envElems_return_args (h : Heap) (hs : TRef) (am ri pi al : Option TRef) :
    envElems (return_args h hs am ri pi al).1 =
      hs :: ((cloneOpt h am).2.toList ++
        ((cloneOpt (cloneOpt h am).1 ri).2.toList ++
          ((cloneOpt (cloneOpt (cloneOpt h am).1 ri).1 pi).2.toList ++
            (cloneOpt (cloneOpt (cloneOpt (cloneOpt h am).1 ri).1 pi).1 al).2.toList))) := by
  unfold return_args
  dsimp only
  split
  case _ t heq =>
    simp only [List.cons_append, List.nil_append, List.append_assoc] at heq
    rw [List.cons_eq_cons] at heq
    obtain ⟨rfl, htail⟩ := heq
    simp only [envElems]
    simp_all
  case _ ts hne =>
    simp [envElems, List.append_assoc]

/-! ## Claim theorems -/

/-- C1: the arity-to-slot mapping of `parse_args` is fixed: a non-tuple value
decodes to `hidden_states` with all four auxiliary slots absent; a tuple of
length 2 to `(hidden_states, attention_mask)`; length 3 adds
`attn_mask_startend_row_indices` (the row-index mask); length 4 adds
`position_ids` with `alibi` (bias) absent; length 5 yields all five slots in
order.  Auxiliary tensors come back with `stop_gradient` set (`markSG`). -/
theorem parse_args_arity_mapping (h a r p b : TRef) :
    parse_args (.single h) = some (h, none, none, none, none) ∧
    parse_args (.tuple [h, a]) = some (h, some (markSG a), none, none, none) ∧
    parse_args (.tuple [h, a, r]) =
      some (h, some (markSG a), some (markSG r), none, none) ∧
    parse_args (.tuple [h, a, r, p]) =
      some (h, some (markSG a), some (markSG r), some (markSG p), none) ∧
    parse_args (.tuple [h, a, r, p, b]) =
      some (h, some (markSG a), some (markSG r), some (markSG p), some (markSG b)) :=
  ⟨rfl, rfl, rfl, rfl, rfl⟩

/-- C5: the recompute decision of `LlamaDecoderLayerPipe.forward` is false
whenever `has_gradient` is false (any enable flag, granularity, layer index);
false when the granularity is not `"full"`; false when the layer index is in
`no_recompute_layers` (the excluded set); and true — the forward is wrapped in
recomputation — when recomputation is enabled, granularity is `"full"`,
`has_gradient` holds, and the layer is not excluded. -/
theorem recompute_decision (e : Bool) (g : String) (L : List Nat) (i : Nat)
    (hg : Bool) :
    should_recompute e g L i false = false ∧
    (g ≠ "full" → should_recompute e g L i hg = false) ∧
    (i ∈ L → should_recompute e g L i hg = false) ∧
    (i ∉ L → should_recompute true "full" L i true = true) := by
  refine ⟨?_, ?_, ?_, ?_⟩
  · simp [should_recompute]
  · intro hne
    simp [should_recompute, beq_iff_eq, hne]
  · intro hmem
    simp [should_recompute, hmem]
  · intro hnmem
    simp [should_recompute, hnmem]

theorem recompute_decision_witness :
    should_recompute true "full" [3] 0 false = false ∧
    should_recompute true "core_attn" [3] 0 true = false ∧
    should_recompute true "full" [3] 3 true = false ∧
    should_recompute true "full" [3] 0 true = true :=
  ⟨(recompute_decision true "full" [3] 0 true).1,
   (recompute_decision true "core_attn" [3] 0 true).2.1 (by decide),
   (recompute_decision true "full" [3] 3 true).2.2.1 (by decide),
   (recompute_decision true "full" [3] 0 true).2.2.2 (by decide)⟩

/-- C7: `LlamaForCausalLMPipe.__init__` selects the boundary-aligned
segmentation `"layer:LlamaDecoderLayer"` exactly when the hidden-layer count
divides evenly by the pipeline-stage count, and `"uniform"` exactly when it
does not. -/
theorem seg_method_choice (n k : Nat) (hk : 0 < k) :
    (choose_seg_method n k = "layer:LlamaDecoderLayer" ↔ k ∣ n) ∧
    (choose_seg_method n k = "uniform" ↔ ¬ k ∣ n) := by
  have hdvd : k ∣ n ↔ n % k = 0 := Nat.dvd_iff_mod_eq_zero
  by_cases h : n % k = 0 <;>
    constructor <;>
      simp [choose_seg_method, h, hdvd]

theorem seg_method_choice_witness :
    (choose_seg_method 8 4 = "layer:LlamaDecoderLayer" ↔ 4 ∣ 8) ∧
    (choose_seg_method 8 4 = "uniform" ↔ ¬ 4 ∣ 8) :=
  seg_method_choice 8 4 (by decide)

/-- C8: `_prepare_pipeline_inputs_func` on the single mapping
`{"input_ids": [1,2,3], "attention_mask": [1,1,1], "labels": [4]}` returns the
first-stage tuple `([1,2,3], [1,1,1], None, None)` — absent enumerated fields
become `None`, not an error — and the unwrapped last-stage value `[4]`. -/
theorem batch_splitter_example :
    prepare_pipeline_inputs_dict
      [("input_ids", [1, 2, 3]), ("attention_mask", [1, 1, 1]), ("labels", [4])] =
    (.tuple [.ints [1, 2, 3], .ints [1, 1, 1], .noneV, .noneV],
     .single (.ints [4])) := by
  rfl

/-- C4: with the bias (alibi) variant off and the backend `"gpu"`, the shared
mask-resolution block behaves as: an `int32` attention mask is reassigned to
the row-index-mask slot, the attention mask becomes absent, and position_ids
receives the previous row-index-mask occupant; an `int64` attention mask
becomes position_ids with attention mask and row-index mask absent; and with
no attention mask, an `int64` row-index mask becomes position_ids with the
row-index-mask slot cleared. -/
theorem mask_resolver_gpu (ri pi al : Option TRef) (a r : TRef) :
    (a.dtype = .int32 →
      resolveMasks false "gpu" (some a) ri pi al = (none, some a, ri, al)) ∧
    (a.dtype = .int64 →
      resolveMasks false "gpu" (some a) ri pi al = (none, none, some a, al)) ∧
    (r.dtype = .int64 →
      resolveMasks false "gpu" none (some r) pi al = (none, none, some r, al)) := by
  refine ⟨?_, ?_, ?_⟩ <;> intro hd <;> simp [resolveMasks, hasDtype, hd]

theorem mask_resolver_gpu_witness :
    (resolveMasks false "gpu" (some ⟨0, .int32, false⟩) (some ⟨1, .float32, false⟩)
        none none =
      (none, some ⟨0, .int32, false⟩, some ⟨1, .float32, false⟩, none)) ∧
    (resolveMasks false "gpu" (some ⟨2, .int64, false⟩) (some ⟨1, .float32, false⟩)
        none none =
      (none, none, some ⟨2, .int64, false⟩, none)) ∧
    (resolveMasks false "gpu" none (some ⟨3, .int64, false⟩) none none =
      (none, none, some ⟨3, .int64, false⟩, none)) :=
  ⟨(mask_resolver_gpu (some ⟨1, .float32, false⟩) none none ⟨0, .int32, false⟩
      ⟨3, .int64, false⟩).1 rfl,
   (mask_resolver_gpu (some ⟨1, .float32, false⟩) none none ⟨2, .int64, false⟩
      ⟨3, .int64, false⟩).2.1 rfl,
   (mask_resolver_gpu (some ⟨1, .float32, false⟩) none none ⟨2, .int64, false⟩
      ⟨3, .int64, false⟩).2.2 rfl⟩

/-- C6: a tuple envelope whose length is 0, 1 or at least 6 makes `parse_args`
fail immediately (UnboundLocalError in the source, `none` here) instead of
returning a decoded value; and an envelope that still has both mutually
exclusive mask slots populated at the embedding layer's entry trips an
assertion (either the alibi/row-index or the attention-mask/row-index
assertion), again with no retry or recovery. -/
theorem invalid_envelope_rejected (l : List TRef) (cfg : Bool) (a r : TRef)
    (hl : List.length l = 0 ∨ List.length l = 1 ∨ 6 ≤ List.length l) :
    parse_args (.tuple l) = none ∧
    ∃ msg, embed_mask_assert cfg (some a) (some r) = .error msg := by
  constructor
  · rcases l with _ | ⟨a1, _ | ⟨a2, _ | ⟨a3, _ | ⟨a4, _ | ⟨a5, rest⟩⟩⟩⟩⟩
    · rfl
    · rfl
    · simp at hl
    · simp at hl
    · simp at hl
    · rcases rest with _ | ⟨a6, rest2⟩
      · simp at hl
      · rfl
  · cases cfg
    · exact ⟨_, rfl⟩
    · exact ⟨_, rfl⟩

theorem invalid_envelope_rejected_witness :
    parse_args (.tuple []) = none ∧
    ∃ msg, embed_mask_assert false (some ⟨0, .float32, false⟩)
      (some ⟨1, .int32, false⟩) = .error msg :=
  invalid_envelope_rejected [] false ⟨0, .float32, false⟩ ⟨1, .int32, false⟩
    (by decide)

/-- C9 counterexample: the claim fails on the code in two places.
(i) `sentence_embedding` performs no padding-side check at all: `"last"`
pooling simply succeeds (here on a model whose tokenizer padding side could be
anything), so an unsupported padding side is not fatal on the training path.
(ii) In `encode_sentences`, an unsupported pooling method hits
`f"Pooling method {self.pooling_method} not supported."` where
`self.pooling_method` does not exist, so the surfaced error is a constant
attribute error: it is not the intended message naming the invalid value
`"max"`, and it is the same for every other invalid method value. -/
theorem pooling_errors_counterexample :
    sentence_embedding "last" [[[1], [2]]] [[1, 0]] = .ok [[1]] ∧
    encode_sentences_pool "max" "middle" [[[1], [2]]] [[1, 0]] =
      .error "AttributeError: BiEncoderModel object has no attribute pooling_method" ∧
    "AttributeError: BiEncoderModel object has no attribute pooling_method" ≠
      "Pooling method max not supported." ∧
    encode_sentences_pool "max" "middle" [[[1], [2]]] [[1, 0]] =
      encode_sentences_pool "some_other_bad_method" "middle" [[[1], [2]]] [[1, 0]] := by
  refine ⟨?_, rfl, by decide, rfl⟩
  show Except.ok (last_pool [[[1], [2]]] [[1, 0]]) = Except.ok [[1]]
  rfl

/-- C9 amended: an unsupported `sentence_pooling_method` is fatal on both
paths — `sentence_embedding` raises a `ValueError` naming the invalid value,
while `encode_sentences` raises an `AttributeError` with a constant message
(its `raise` line references the nonexistent attribute `self.pooling_method`)
that does not name the value; an unsupported tokenizer padding side is fatal,
naming the side, only in `encode_sentences` with `"last"` pooling —
`sentence_embedding` never checks the padding side. -/
theorem pooling_errors_amended (m s : String)
    (hidden : List (List (List Rat))) (mask : List (List Nat))
    (hm : m ≠ "mean" ∧ m ≠ "cls" ∧ m ≠ "last")
    (hs : s ≠ "right" ∧ s ≠ "left") :
    sentence_embedding m hidden mask =
      .error ("Invalid sentence pooling method: " ++ m) ∧
    encode_sentences_pool "last" s hidden mask =
      .error ("Padding side " ++ s ++ " not supported.") ∧
    encode_sentences_pool m s hidden mask =
      .error "AttributeError: BiEncoderModel object has no attribute pooling_method" := by
  obtain ⟨hm1, hm2, hm3⟩ := hm
  obtain ⟨hs1, hs2⟩ := hs
  refine ⟨?_, ?_, ?_⟩
  · simp [sentence_embedding, hm1, hm2, hm3]
  · simp [encode_sentences_pool, hs1, hs2]
  · simp [encode_sentences_pool, hm1, hm2, hm3]

theorem pooling_errors_amended_witness :
    sentence_embedding "max" [[[1]]] [[1]] =
      .error ("Invalid sentence pooling method: " ++ "max") ∧
    encode_sentences_pool "last" "middle" [[[1]]] [[1]] =
      .error ("Padding side " ++ "middle" ++ " not supported.") ∧
    encode_sentences_pool "max" "middle" [[[1]]] [[1]] =
      .error "AttributeError: BiEncoderModel object has no attribute pooling_method" :=
  pooling_errors_amended "max" "middle" [[[1]]] [[1]]
    (by refine ⟨?_, ?_, ?_⟩ <;> decide) (by refine ⟨?_, ?_⟩ <;> decide)

/-- C10 counterexample: with `"cls"` pooling the two paths do not select the
same token position.  On the batch of one sequence `[[1], [2]]` (two tokens,
one-dimensional hidden states), `sentence_embedding` returns token 0's vector
`[1]` while the inline pooling of `encode_sentences` returns token 1's vector
`[2]`. -/
theorem cls_pooling_counterexample :
    sentence_embedding "cls" [[[1], [2]]] [[1, 1]] = .ok [[1]] ∧
    encode_sentences_pool "cls" "right" [[[1], [2]]] [[1, 1]] = .ok [[2]] ∧
    ([[(1 : Rat)]] : List (List Rat)) ≠ [[2]] := by
  refine ⟨rfl, rfl, by decide⟩

/-- C10 amended: before the final normalization, the pooling inlined in
`encode_sentences` agrees with `sentence_embedding` for `"mean"` (for any
padding side, which neither consults) and for `"last"` with right-side
padding; for `"cls"` the two differ in the selected token position —
`encode_sentences` takes `last_hidden_state[:, 1]` while `sentence_embedding`
takes `hidden_state[:, 0]`. -/
theorem pooling_equivalence_amended (s : String)
    (hidden : List (List (List Rat))) (mask : List (List Nat)) :
    encode_sentences_pool "mean" s hidden mask =
      sentence_embedding "mean" hidden mask ∧
    encode_sentences_pool "last" "right" hidden mask =
      sentence_embedding "last" hidden mask ∧
    encode_sentences_pool "cls" s hidden mask =
      .ok (hidden.map (fun rows => List.getD rows 1 [])) ∧
    sentence_embedding "cls" hidden mask =
      .ok (hidden.map (fun rows => List.getD rows 0 [])) := by
  refine ⟨?_, ?_, ?_, ?_⟩
  · simp [encode_sentences_pool, sentence_embedding, encode_mean_pool, mean_pool]
  · simp [encode_sentences_pool, sentence_embedding, encode_last_pool, last_pool]
  · simp [encode_sentences_pool]
  · simp [sentence_embedding]

theorem clone_step_spec (h H F : Heap) (t : TRef) (d : DType) (sg : Bool)
    (eH : heapExt H h) (eF : heapExt F (cloneOpt H (some t)).1)
    (hvt : validRef h t) :
    List.length h ≤ List.length H ∧
    valueOf F ⟨List.length H, d, sg⟩ = valueOf h t ∧
    ∀ (w : TRef) (v : List Int), w.uid < List.length h →
      valueOf (setData F (List.length H) v) w = valueOf h w := by
  have hvt' : t.uid < List.length h := hvt
  have hlen : List.length h ≤ List.length H := heapExt_length eH
  have hext1 : heapExt (cloneOpt H (some t)).1 H := cloneOpt_fst_ext H (some t)
  have hFh : heapExt F h := heapExt_trans (heapExt_trans eH hext1) eF
  refine ⟨hlen, ?_, ?_⟩
  · have hstep : valueOf F ⟨List.length H, d, sg⟩ =
        valueOf (cloneOpt H (some t)).1 ⟨List.length H, d, sg⟩ := by
      apply valueOf_ext eF
      simp [cloneOpt_some_eq]
    rw [hstep, valueOf_cloned H t]
    exact valueOf_ext eH hvt'
  · intro w v hw
    rw [valueOf_setData_ne]
    · exact valueOf_ext hFh hw
    · exact Nat.ne_of_lt (lt_of_lt_of_le hw hlen)

/-- C3: every non-`None` auxiliary argument of `return_args` is forwarded as a
fresh clone: the envelope contains a tensor whose identity is outside the
caller's heap (`List.length h ≤ c.uid`), with the same dtype and the same
data; an in-place mutation of the forwarded copy leaves every tensor the
caller retained (any reference into the original heap) unchanged.
`hidden_states` itself is forwarded without cloning, as the envelope's first
element. -/
theorem return_args_clone_isolation (h : Heap) (hs : TRef)
    (am ri pi al : Option TRef)
    (hv : ∀ x ∈ [am, ri, pi, al], ∀ t, x = some t → validRef h t) :
    (envElems (return_args h hs am ri pi al).1).head? = some hs ∧
    ∀ x ∈ [am, ri, pi, al], ∀ t, x = some t →
      ∃ c, c ∈ envElems (return_args h hs am ri pi al).1 ∧
        List.length h ≤ c.uid ∧
        c.dtype = t.dtype ∧
        valueOf (return_args h hs am ri pi al).2 c = valueOf h t ∧
        ∀ (w : TRef) (v : List Int), w.uid < List.length h →
          valueOf (setData (return_args h hs am ri pi al).2 c.uid v) w =
            valueOf h w := by
  constructor
  · rw [envElems_return_args]
    rfl
  · intro x hx t hxt
    have hvt : validRef h t := hv x hx t hxt
    simp only [List.mem_cons, List.mem_singleton, List.not_mem_nil, or_false] at hx
    rcases hx with rfl | rfl | rfl | rfl
    · subst hxt
      have eF : heapExt
          (cloneOpt (cloneOpt (cloneOpt (cloneOpt h (some t)).1 ri).1 pi).1 al).1
          (cloneOpt h (some t)).1 :=
        heapExt_trans
          (heapExt_trans (cloneOpt_fst_ext _ ri) (cloneOpt_fst_ext _ pi))
          (cloneOpt_fst_ext _ al)
      obtain ⟨hle, hval, hmut⟩ :=
        clone_step_spec h h _ t t.dtype t.stop_gradient (heapExt_refl h) eF hvt
      refine ⟨⟨List.length h, t.dtype, t.stop_gradient⟩, ?_, hle, rfl, ?_, ?_⟩
      · rw [envElems_return_args]
        simp [cloneOpt_some_eq]
      · rw [return_args_snd]
        exact hval
      · intro w v hw
        rw [return_args_snd]
        exact hmut w v hw
    · subst hxt
      have eF : heapExt
          (cloneOpt (cloneOpt (cloneOpt (cloneOpt h am).1 (some t)).1 pi).1 al).1
          (cloneOpt (cloneOpt h am).1 (some t)).1 :=
        heapExt_trans (cloneOpt_fst_ext _ pi) (cloneOpt_fst_ext _ al)
      obtain ⟨hle, hval, hmut⟩ :=
        clone_step_spec h (cloneOpt h am).1 _ t t.dtype t.stop_gradient
          (cloneOpt_fst_ext h am) eF hvt
      refine ⟨⟨List.length (cloneOpt h am).1, t.dtype, t.stop_gradient⟩, ?_,
        hle, rfl, ?_, ?_⟩
      · rw [envElems_return_args]
        simp [cloneOpt_some_eq]
      · rw [return_args_snd]
        exact hval
      · intro w v hw
        rw [return_args_snd]
        exact hmut w v hw
    · subst hxt
      have eF : heapExt
          (cloneOpt (cloneOpt (cloneOpt (cloneOpt h am).1 ri).1 (some t)).1 al).1
          (cloneOpt (cloneOpt (cloneOpt h am).1 ri).1 (some t)).1 :=
        cloneOpt_fst_ext _ al
      obtain ⟨hle, hval, hmut⟩ :=
        clone_step_spec h (cloneOpt (cloneOpt h am).1 ri).1 _ t t.dtype
          t.stop_gradient
          (heapExt_trans (cloneOpt_fst_ext h am) (cloneOpt_fst_ext _ ri)) eF hvt
      refine ⟨⟨List.length (cloneOpt (cloneOpt h am).1 ri).1, t.dtype,
        t.stop_gradient⟩, ?_, hle, rfl, ?_, ?_⟩
      · rw [envElems_return_args]
        simp [cloneOpt_some_eq]
      · rw [return_args_snd]
        exact hval
      · intro w v hw
        rw [return_args_snd]
        exact hmut w v hw
    · subst hxt
      have eF : heapExt
          (cloneOpt (cloneOpt (cloneOpt (cloneOpt h am).1 ri).1 pi).1 (some t)).1
          (cloneOpt (cloneOpt (cloneOpt (cloneOpt h am).1 ri).1 pi).1 (some t)).1 :=
        heapExt_refl _
      obtain ⟨hle, hval, hmut⟩ :=
        clone_step_spec h (cloneOpt (cloneOpt (cloneOpt h am).1 ri).1 pi).1 _ t
          t.dtype t.stop_gradient
          (heapExt_trans
            (heapExt_trans (cloneOpt_fst_ext h am) (cloneOpt_fst_ext _ ri))
            (cloneOpt_fst_ext _ pi)) eF hvt
      refine ⟨⟨List.length (cloneOpt (cloneOpt (cloneOpt h am).1 ri).1 pi).1,
        t.dtype, t.stop_gradient⟩, ?_, hle, rfl, ?_, ?_⟩
      · rw [envElems_return_args]
        simp [cloneOpt_some_eq]
      · rw [return_args_snd]
        exact hval
      · intro w v hw
        rw [return_args_snd]
        exact hmut w v hw

theorem return_args_clone_isolation_witness :
    (envElems (return_args [[10], [20]] ⟨0, .float32, false⟩
      (some ⟨1, .int64, false⟩) none none none).1).head? =
        some ⟨0, .float32, false⟩ ∧
    ∃ c, c ∈ envElems (return_args [[10], [20]] ⟨0, .float32, false⟩
        (some ⟨1, .int64, false⟩) none none none).1 ∧
      2 ≤ c.uid ∧
      c.dtype = .int64 ∧
      valueOf (return_args [[10], [20]] ⟨0, .float32, false⟩
        (some ⟨1, .int64, false⟩) none none none).2 c = [20] ∧
      ∀ (w : TRef) (v : List Int), w.uid < 2 →
        valueOf (setData (return_args [[10], [20]] ⟨0, .float32, false⟩
          (some ⟨1, .int64, false⟩) none none none).2 c.uid v) w =
          valueOf [[10], [20]] w := by
  obtain ⟨hhead, hslots⟩ :=
    return_args_clone_isolation [[10], [20]] ⟨0, .float32, false⟩
      (some ⟨1, .int64, false⟩) none none none
      (by
        intro x hx t hxt
        simp only [List.mem_cons, List.mem_singleton, List.not_mem_nil,
          or_false] at hx
        rcases hx with rfl | rfl | rfl | rfl
        · cases hxt
          show (1 : Nat) < 2
          decide
        · cases hxt
        · cases hxt
        · cases hxt)
  refine ⟨hhead, ?_⟩
  obtain ⟨c, hmem, hle, hdt, hval, hmut⟩ :=
    hslots (some ⟨1, .int64, false⟩) (by simp) ⟨1, .int64, false⟩ rfl
  exact ⟨c, hmem, hle, hdt, hval, hmut⟩

theorem slot1_value (h : Heap) (a : TRef) (ri pi al : Option TRef)
    (hva : validRef h a) (d : DType) (sg : Bool) :
    valueOf (cloneOpt (cloneOpt (cloneOpt (cloneOpt h (some a)).1 ri).1 pi).1 al).1
      ⟨List.length h, d, sg⟩ = valueOf h a :=
  (clone_step_spec h h _ a d sg (heapExt_refl h)
    (heapExt_trans (heapExt_trans (cloneOpt_fst_ext _ ri) (cloneOpt_fst_ext _ pi))
      (cloneOpt_fst_ext _ al)) hva).2.1

theorem slot2_value (h : Heap) (am : Option TRef) (r : TRef) (pi al : Option TRef)
    (hvr : validRef h r) (d : DType) (sg : Bool) :
    valueOf (cloneOpt (cloneOpt (cloneOpt (cloneOpt h am).1 (some r)).1 pi).1 al).1
      ⟨List.length (cloneOpt h am).1, d, sg⟩ = valueOf h r :=
  (clone_step_spec h (cloneOpt h am).1 _ r d sg (cloneOpt_fst_ext h am)
    (heapExt_trans (cloneOpt_fst_ext _ pi) (cloneOpt_fst_ext _ al)) hvr).2.1

theorem slot3_value (h : Heap) (am ri : Option TRef) (p : TRef) (al : Option TRef)
    (hvp : validRef h p) (d : DType) (sg : Bool) :
    valueOf (cloneOpt (cloneOpt (cloneOpt (cloneOpt h am).1 ri).1 (some p)).1 al).1
      ⟨List.length (cloneOpt (cloneOpt h am).1 ri).1, d, sg⟩ = valueOf h p :=
  (clone_step_spec h (cloneOpt (cloneOpt h am).1 ri).1 _ p d sg
    (heapExt_trans (cloneOpt_fst_ext h am) (cloneOpt_fst_ext _ ri))
    (cloneOpt_fst_ext _ al) hvp).2.1

theorem slot4_value (h : Heap) (am ri pi : Option TRef) (b : TRef)
    (hvb : validRef h b) (d : DType) (sg : Bool) :
    valueOf (cloneOpt (cloneOpt (cloneOpt (cloneOpt h am).1 ri).1 pi).1 (some b)).1
      ⟨List.length (cloneOpt (cloneOpt (cloneOpt h am).1 ri).1 pi).1, d, sg⟩ =
      valueOf h b :=
  (clone_step_spec h (cloneOpt (cloneOpt (cloneOpt h am).1 ri).1 pi).1 _ b d sg
    (heapExt_trans (heapExt_trans (cloneOpt_fst_ext h am) (cloneOpt_fst_ext _ ri))
      (cloneOpt_fst_ext _ pi))
    (heapExt_refl _) hvb).2.1

/-- C2: for every valid combination of populated slots — a contiguous prefix
of the slot order `(hidden_states, attention_mask, attn_mask_startend_row_indices,
position_ids, alibi)` — decoding an encoded envelope (`parse_args` after
`return_args`) yields the original hidden-states object in the first slot
(so it is not marked non-differentiable), and in each originally populated
auxiliary slot a tensor with the original data and dtype and with
`stop_gradient` set (`slotsMatch`); originally empty slots come back absent. -/
theorem envelope_roundtrip (h : Heap) (hs : TRef) (am ri pi al : Option TRef)
    (hcomb : (ri.isSome = true → am.isSome = true) ∧
      (pi.isSome = true → ri.isSome = true) ∧
      (al.isSome = true → pi.isSome = true))
    (hv : ∀ x ∈ [am, ri, pi, al], ∀ t, x = some t → validRef h t) :
    ∃ dam dri dpi dal,
      parse_args (return_args h hs am ri pi al).1 = some (hs, dam, dri, dpi, dal) ∧
      slotsMatch h (return_args h hs am ri pi al).2 am dam ∧
      slotsMatch h (return_args h hs am ri pi al).2 ri dri ∧
      slotsMatch h (return_args h hs am ri pi al).2 pi dpi ∧
      slotsMatch h (return_args h hs am ri pi al).2 al dal := by
  rcases am with _ | a <;> rcases ri with _ | r <;> rcases pi with _ | p <;>
    rcases al with _ | b
  all_goals try (exfalso; simp_all; done)
  · exact ⟨none, none, none, none, rfl, trivial, trivial, trivial, trivial⟩
  · have hva : validRef h a := hv (some a) (by simp) a rfl
    refine ⟨some (markSG ⟨List.length h, a.dtype, a.stop_gradient⟩),
      none, none, none, rfl, ?_, trivial, trivial, trivial⟩
    exact ⟨rfl, rfl, by
      rw [return_args_snd]
      exact slot1_value h a none none none hva a.dtype true⟩
  · have hva : validRef h a := hv (some a) (by simp) a rfl
    have hvr : validRef h r := hv (some r) (by simp) r rfl
    refine ⟨some (markSG ⟨List.length h, a.dtype, a.stop_gradient⟩),
      some (markSG ⟨List.length (cloneOpt h (some a)).1, r.dtype,
        r.stop_gradient⟩),
      none, none, rfl, ?_, ?_, trivial, trivial⟩
    · exact ⟨rfl, rfl, by
        rw [return_args_snd]
        exact slot1_value h a (some r) none none hva a.dtype true⟩
    · exact ⟨rfl, rfl, by
        rw [return_args_snd]
        exact slot2_value h (some a) r none none hvr r.dtype true⟩
  · have hva : validRef h a := hv (some a) (by simp) a rfl
    have hvr : validRef h r := hv (some r) (by simp) r rfl
    have hvp : validRef h p := hv (some p) (by simp) p rfl
    refine ⟨some (markSG ⟨List.length h, a.dtype, a.stop_gradient⟩),
      some (markSG ⟨List.length (cloneOpt h (some a)).1, r.dtype,
        r.stop_gradient⟩),
      some (markSG ⟨List.length (cloneOpt (cloneOpt h (some a)).1 (some r)).1,
        p.dtype, p.stop_gradient⟩),
      none, rfl, ?_, ?_, ?_, trivial⟩
    · exact ⟨rfl, rfl, by
        rw [return_args_snd]
        exact slot1_value h a (some r) (some p) none hva a.dtype true⟩
    · exact ⟨rfl, rfl, by
        rw [return_args_snd]
        exact slot2_value h (some a) r (some p) none hvr r.dtype true⟩
    · exact ⟨rfl, rfl, by
        rw [return_args_snd]
        exact slot3_value h (some a) (some r) p none hvp p.dtype true⟩
  · have hva : validRef h a := hv (some a) (by simp) a rfl
    have hvr : validRef h r := hv (some r) (by simp) r rfl
    have hvp : validRef h p := hv (some p) (by simp) p rfl
    have hvb : validRef h b := hv (some b) (by simp) b rfl
    refine ⟨some (markSG ⟨List.length h, a.dtype, a.stop_gradient⟩),
      some (markSG ⟨List.length (cloneOpt h (some a)).1, r.dtype,
        r.stop_gradient⟩),
      some (markSG ⟨List.length (cloneOpt (cloneOpt h (some a)).1 (some r)).1,
        p.dtype, p.stop_gradient⟩),
      some (markSG ⟨List.length
        (cloneOpt (cloneOpt (cloneOpt h (some a)).1 (some r)).1 (some p)).1,
        b.dtype, b.stop_gradient⟩),
      rfl, ?_, ?_, ?_, ?_⟩
    · exact ⟨rfl, rfl, by
        rw [return_args_snd]
        exact slot1_value h a (some r) (some p) (some b) hva a.dtype true⟩
    · exact ⟨rfl, rfl, by
        rw [return_args_snd]
        exact slot2_value h (some a) r (some p) (some b) hvr r.dtype true⟩
    · exact ⟨rfl, rfl, by
        rw [return_args_snd]
        exact slot3_value h (some a) (some r) p (some b) hvp p.dtype true⟩
    · exact ⟨rfl, rfl, by
        rw [return_args_snd]
        exact slot4_value h (some a) (some r) (some p) b hvb b.dtype true⟩

theorem envelope_roundtrip_witness :
    ∃ dam dri dpi dal,
      parse_args (return_args [[1], [2], [3], [4], [5]] ⟨0, .float32, false⟩
        (some ⟨1, .float32, false⟩) (some ⟨2, .int32, false⟩)
        (some ⟨3, .int64, false⟩) (some ⟨4, .float32, false⟩)).1 =
        some (⟨0, .float32, false⟩, dam, dri, dpi, dal) ∧
      slotsMatch [[1], [2], [3], [4], [5]]
        (return_args [[1], [2], [3], [4], [5]] ⟨0, .float32, false⟩
          (some ⟨1, .float32, false⟩) (some ⟨2, .int32, false⟩)
          (some ⟨3, .int64, false⟩) (some ⟨4, .float32, false⟩)).2
        (some ⟨1, .float32, false⟩) dam ∧
      slotsMatch [[1], [2], [3], [4], [5]]
        (return_args [[1], [2], [3], [4], [5]] ⟨0, .float32, false⟩
          (some ⟨1, .float32, false⟩) (some ⟨2, .int32, false⟩)
          (some ⟨3, .int64, false⟩) (some ⟨4, .float32, false⟩)).2
        (some ⟨2, .int32, false⟩) dri ∧
      slotsMatch [[1], [2], [3], [4], [5]]
        (return_args [[1], [2], [3], [4], [5]] ⟨0, .float32, false⟩
          (some ⟨1, .float32, false⟩) (some ⟨2, .int32, false⟩)
          (some ⟨3, .int64, false⟩) (some ⟨4, .float32, false⟩)).2
        (some ⟨3, .int64, false⟩) dpi ∧
      slotsMatch [[1], [2], [3], [4], [5]]
        (return_args [[1], [2], [3], [4], [5]] ⟨0, .float32, false⟩
          (some ⟨1, .float32, false⟩) (some ⟨2, .int32, false⟩)
          (some ⟨3, .int64, false⟩) (some ⟨4, .float32, false⟩)).2
        (some ⟨4, .float32, false⟩) dal :=
  envelope_roundtrip [[1], [2], [3], [4], [5]] ⟨0, .float32, false⟩
    (some ⟨1, .float32, false⟩) (some ⟨2, .int32, false⟩)
    (some ⟨3, .int64, false⟩) (some ⟨4, .float32, false⟩)
    (by refine ⟨?_, ?_, ?_⟩ <;> decide)
    (by
      intro x hx t hxt
      simp only [List.mem_cons, List.mem_singleton, List.not_mem_nil,
        or_false] at hx
      rcases hx with rfl | rfl | rfl | rfl <;> cases hxt
      · show (1 : Nat) < 5
        decide
      · show (2 : Nat) < 5
        decide
      · show (3 : Nat) < 5
        decide
      · show (4 : Nat) < 5
        decide)
